import Mathlib

/-!
A shallow embedding of the tui.h terminal user interface library
(a single-header C library) together with theorems about its color
matrix, session lifecycle, window-tree teardown and event routing.

Modelling conventions:
the C machine integers (short, int) are modelled as Int; all values
involved stay far below any overflow bound, so no modular reduction is
needed.  C pointers are modelled as Option values (none is NULL); the
ncurses WINDOW* surface handles are opaque Nat identifiers.  Calls into
the ncurses backend are recorded as explicit traces or returned values,
so that every embedded operation is a pure function of its inputs.
-/

namespace Tui

/-- Key code definitions from tui.h. -/
def KEY_CTRLC : Int := 3

def KEY_CTRLZ : Int := 26

def KEY_ESC : Int := 27

def KEY_CTRLS : Int := 19

def KEY_CTRLH : Int := 8

def KEY_CTRLD : Int := 4

def KEY_ENTR : Int := 10

def KEY_TAB : Int := 9

/-- ncurses color constant COLOR_BLACK. -/
def COLOR_BLACK : Int := 0

def COLOR_RED : Int := 1

def COLOR_GREEN : Int := 2

def COLOR_YELLOW : Int := 3

def COLOR_BLUE : Int := 4

def COLOR_MAGENTA : Int := 5

def COLOR_CYAN : Int := 6

def COLOR_WHITE : Int := 7

/-- Ordinal of TUI_COLOR_NONE in the tui_color_t enumeration. -/
def TUI_COLOR_NONE : Int := 0

def TUI_COLOR_BLACK : Int := 1

def TUI_COLOR_RED : Int := 2

def TUI_COLOR_GREEN : Int := 3

def TUI_COLOR_YELLOW : Int := 4

def TUI_COLOR_BLUE : Int := 5

def TUI_COLOR_MAGENTA : Int := 6

def TUI_COLOR_CYAN : Int := 7

def TUI_COLOR_WHITE : Int := 8

/-- The TUI_COLORS table from the source: entry 0 is -1 (the ncurses
default color used for TUI_COLOR_NONE), followed by the eight ncurses
color constants. -/
def TUI_COLORS : List Int :=
  [-1, COLOR_BLACK, COLOR_RED, COLOR_GREEN, COLOR_YELLOW,
   COLOR_BLUE, COLOR_MAGENTA, COLOR_CYAN, COLOR_WHITE]

/-- State of the ncurses color-pair registry: pair index to registered
(fg, bg) content, none when the pair has not been registered. -/
def PairTable : Type := Int → Option (Int × Int)

/-- The ncurses init_pair call: registers (fg, bg) as the content of the
given pair index. -/
def init_pair (pairs : PairTable) (pair fg bg : Int) : PairTable :=
  fun i => if i = pair then some (fg, bg) else pairs i

/-- The ncurses pair_content call: the registered content of a pair
index; none models the ERR return. -/
def pair_content (pairs : PairTable) (pair : Int) : Option (Int × Int) :=
  pairs pair

/-- The pair registry before tui_colors_init has run. -/
def empty_pairs : PairTable := fun _ => none

/-- tui_colors_init from the source: two nested loops over fg_index and
bg_index in [0, 9), registering pair index fg_index * 9 + bg_index with
content (TUI_COLORS[fg_index], TUI_COLORS[bg_index]).  Returns the final
pair registry together with the ordered list of init_pair calls
(index, fg, bg) that were issued. -/
def tui_colors_init (pairs : PairTable) : PairTable × List (Int × Int × Int) :=
  (List.range 9).foldl
    (fun acc fg_index =>
      (List.range 9).foldl
        (fun acc2 bg_index =>
          let index : Int := Int.ofNat fg_index * 9 + Int.ofNat bg_index
          let fg_color : Int := TUI_COLORS.getD fg_index 0
          let bg_color : Int := TUI_COLORS.getD bg_index 0
          (init_pair acc2.1 index fg_color bg_color,
           acc2.2 ++ [(index, fg_color, bg_color)]))
        acc)
    (pairs, [])

/-- The pair registry after startup registration (tui_colors_init run on
a fresh registry, as done once by tui_init). -/
def tui_pairs : PairTable := (tui_colors_init empty_pairs).1

/-- The pair index computation fg * 9 + bg used by tui_color_on,
tui_color_off and tui_colors_init, restricted to the enumeration
ordinals, as a function between the finite ordinal types. -/
def tui_pair_index_fin (p : Fin 9 × Fin 9) : Fin 81 :=
  ⟨p.1.val * 9 + p.2.val, by
    have h1 := p.1.isLt
    have h2 := p.2.isLt
    omega⟩

/-- tui_window_t from the source: a tagged union over the three window
variants.  Each variant keeps its native surface handle (the WINDOW*
field, a nullable opaque id) and the variant payload read by the
embedded operations: the children array for parent windows, the two
owned heap strings of text windows and the owned buffer of input
windows.  Fields never read by the embedded operations (name, geometry,
visibility and interaction flags, colors, border, event handler and the
non-owning parent and session back-references) are not modelled. -/
inductive tui_window_t where
  | parent (window : Option Nat) (children : List (Option tui_window_t))
  | text (window : Option Nat) (string : Option String) (text : Option String)
  | input (window : Option Nat) (buffer : Option String)

/-- tui_menu_t from the source: name, owned windows array (window_count
is its length) and the opaque event handler; the non-owning tui
back-reference is not modelled. -/
structure tui_menu_t where
  name : Option String
  windows : List (Option tui_window_t)
  event : Option Nat

/-- tui_t from the source.  The four count fields (menu_count,
window_count, tab_window_count) are the lengths of the corresponding
lists; the non-owning tab_windows view and the non-owning active
menu and window pointers hold opaque ids; event is the opaque global
handler pointer. -/
structure tui_t where
  w : Int
  h : Int
  menus : List (Option tui_menu_t)
  windows : List (Option tui_window_t)
  tab_windows : List Nat
  menu : Option Nat
  window : Option Nat
  color : Int
  event : Option Nat
  is_running : Bool

/-- tui_color_on from the source: reads the content of the last active
pair tui.color via pair_content; on OK, a TUI_COLOR_NONE argument is
replaced by the corresponding last component plus one (ncurses colors
and tui colors differ by 1); stores the resulting pair index fg * 9 + bg
in tui.color and passes it to attron.  Returns the updated session and
the index passed to attron. -/
def tui_color_on (pairs : PairTable) (tui : tui_t) (fg bg : Int) : tui_t × Int :=
  let fgbg : Int × Int :=
    match pair_content pairs tui.color with
    | some (last_fg, last_bg) =>
        (if fg = TUI_COLOR_NONE then last_fg + 1 else fg,
         if bg = TUI_COLOR_NONE then last_bg + 1 else bg)
    | none => (fg, bg)
  let color : Int := fgbg.1 * 9 + fgbg.2
  ({ tui with color := color }, color)

/-- tui_color_off from the source: performs the same TUI_COLOR_NONE
substitution as tui_color_on, but only passes the resulting index
fg * 9 + bg to attroff; the session struct is never written.  Returns
the session as left by the call and the index passed to attroff. -/
def tui_color_off (pairs : PairTable) (tui : tui_t) (fg bg : Int) : tui_t × Int :=
  let fgbg : Int × Int :=
    match pair_content pairs tui.color with
    | some (last_fg, last_bg) =>
        (if fg = TUI_COLOR_NONE then last_fg + 1 else fg,
         if bg = TUI_COLOR_NONE then last_bg + 1 else bg)
    | none => (fg, bg)
  (tui, fgbg.1 * 9 + fgbg.2)

/-- One call into the ncurses backend, as issued by tui_init. -/
inductive ncurses_call where
  | initscr_call
  | noecho_call
  | raw_call
  | keypad_call
  | start_color_call
  | endwin_call
  | use_default_colors_call
  | init_pair_call (pair fg bg : Int)
  | clear_call
  | refresh_call
deriving DecidableEq

/-- Whether an ncurses call is an init_pair registration. -/
def is_init_pair_call : ncurses_call → Bool
  | .init_pair_call _ _ _ => true
  | _ => false

/-- tui_init from the source: initscr, noecho, raw and keypad are always
issued; then, if start_color reports ERR or has_colors reports FALSE,
endwin is issued and 1 is returned; otherwise use_default_colors is
issued, tui_colors_init registers all pairs, the screen is cleared and
refreshed and 0 is returned.  The two backend capabilities are inputs;
the result is the return code and the ordered backend call trace. -/
def tui_init (start_color_ok has_colors : Bool) : Int × List ncurses_call :=
  let pre : List ncurses_call :=
    [.initscr_call, .noecho_call, .raw_call, .keypad_call, .start_color_call]
  if start_color_ok = false ∨ has_colors = false then
    (1, pre ++ [.endwin_call])
  else
    (0, pre ++ [.use_default_colors_call]
          ++ ((tui_colors_init empty_pairs).2.map
                (fun c => ncurses_call.init_pair_call c.1 c.2.1 c.2.2))
          ++ [.clear_call, .refresh_call])

/-- tui_create from the source: on malloc failure, NULL is returned and
nothing is created; otherwise the struct is zeroed and w, h and event
are set from getmaxx(stdscr), getmaxy(stdscr) and the supplied handler.
The malloc outcome and the stdscr dimensions are inputs. -/
def tui_create (malloc_ok : Bool) (stdscr_w stdscr_h : Int) (event : Option Nat) :
    Option tui_t :=
  if malloc_ok = false then
    none
  else
    some { w := stdscr_w, h := stdscr_h, menus := [], windows := [],
           tab_windows := [], menu := none, window := none, color := 0,
           event := event, is_running := false }

/-- tui_ncurses_window_free from the source: a NULL pointer or a pointer
to NULL returns immediately; otherwise wclear, wrefresh and delwin are
issued on the surface and the pointer is set to NULL.  err gives the
backend result of each of those calls; the source discards all three
results, which the unused let bindings mirror.  Returns the value of the
pointer after the call and the surfaces passed to delwin. -/
def tui_ncurses_window_free (err : Nat → Bool) (window : Option Nat) :
    Option Nat × List Nat :=
  match window with
  | none => (none, [])
  | some w =>
      let _wclear_result := err w
      let _wrefresh_result := err w
      let _delwin_result := err w
      (none, [w])

/-- tui_window_text_free from the source: frees the own surface, the
owned text heap string and the struct itself; the pointer is set to
NULL by the caller side of the cast (modelled at tui_window_free).
Returns the surfaces passed to delwin. -/
def tui_window_text_free (err : Nat → Bool) (window : Option Nat)
    (string text : Option String) : List Nat :=
  (tui_ncurses_window_free err window).2

/-- tui_window_input_free from the source: frees the own surface and the
struct itself.  Returns the surfaces passed to delwin. -/
def tui_window_input_free (err : Nat → Bool) (window : Option Nat)
    (buffer : Option String) : List Nat :=
  (tui_ncurses_window_free err window).2

mutual

/-- The switch statement of tui_window_free from the source, dispatching
on the window type.  The TUI_WINDOW_PARENT case is the body of
tui_window_parent_free: first tui_windows_free on the children array,
then tui_ncurses_window_free on the own surface, then free of the
struct; the named wrapper tui_window_parent_free is defined right after
this mutual block.  Returns the surfaces passed to delwin. -/
def tui_window_free_switch (err : Nat → Bool) : tui_window_t → List Nat
  | .parent window children =>
      (tui_windows_free err children).2 ++ (tui_ncurses_window_free err window).2
  | .text window string text => tui_window_text_free err window string text
  | .input window buffer => tui_window_input_free err window buffer

/-- tui_window_free from the source: a NULL pointer or a pointer to NULL
returns immediately, otherwise the variant free runs and nulls the
pointer.  Returns the value of the pointer after the call and the
surfaces passed to delwin. -/
def tui_window_free (err : Nat → Bool) :
    Option tui_window_t → Option tui_window_t × List Nat
  | none => (none, [])
  | some w => (none, tui_window_free_switch err w)

/-- tui_windows_free from the source: tui_window_free on every element
of the array in index order, then free of the array itself; the array
pointer is set to NULL and the count to 0.  Returns the value of the
array pointer after the call and the surfaces passed to delwin. -/
def tui_windows_free (err : Nat → Bool) :
    List (Option tui_window_t) → Option (List (Option tui_window_t)) × List Nat
  | [] => (none, [])
  | p :: ws => (none, (tui_window_free err p).2 ++ (tui_windows_free err ws).2)

end

/-- tui_window_parent_free from the source: frees the children array via
tui_windows_free, then the own surface via tui_ncurses_window_free, then
the struct itself; the pointer is set to NULL.  Returns the surfaces
passed to delwin. -/
def tui_window_parent_free (err : Nat → Bool) (window : Option Nat)
    (children : List (Option tui_window_t)) : List Nat :=
  (tui_windows_free err children).2 ++ (tui_ncurses_window_free err window).2

/-- tui_menu_free from the source: a NULL pointer or a pointer to NULL
returns immediately, otherwise the owned windows array is freed and the
struct released; the pointer is set to NULL. -/
def tui_menu_free (err : Nat → Bool) :
    Option tui_menu_t → Option tui_menu_t × List Nat
  | none => (none, [])
  | some m => (none, (tui_windows_free err m.windows).2)

/-- The for loop in tui_delete: tui_menu_free on every element of the
menus array in index order.  Returns the surfaces passed to delwin. -/
def tui_menus_free_loop (err : Nat → Bool) : List (Option tui_menu_t) → List Nat
  | [] => []
  | m :: ms => (tui_menu_free err m).2 ++ tui_menus_free_loop err ms

/-- tui_delete from the source: a NULL pointer or a pointer to NULL
returns immediately; otherwise every menu is freed, the menus array
released, the top-level windows freed via tui_windows_free, the
tab_windows array released without touching the referenced windows (it
is a non-owning view), the struct released and the pointer set to NULL.
Returns the value of the pointer after the call and the surfaces passed
to delwin. -/
def tui_delete (err : Nat → Bool) : Option tui_t → Option tui_t × List Nat
  | none => (none, [])
  | some t => (none, tui_menus_free_loop err t.menus ++ (tui_windows_free err t.windows).2)

mutual

/-- Specification-side post-order listing of the native surfaces of a
window subtree: the surfaces of all children in order, then the own
surface (skipping NULL surfaces, which have nothing to destroy). -/
def window_postorder : tui_window_t → List Nat
  | .parent window children => windows_postorder children ++ window.toList
  | .text window _ _ => window.toList
  | .input window _ => window.toList

/-- Post-order surfaces behind a window pointer: empty for NULL. -/
def window_opt_postorder : Option tui_window_t → List Nat
  | none => []
  | some w => window_postorder w

/-- Post-order surfaces of a window array, in index order. -/
def windows_postorder : List (Option tui_window_t) → List Nat
  | [] => []
  | p :: ws => window_opt_postorder p ++ windows_postorder ws

end

mutual

/-- Number of window nodes in a subtree (the node itself included). -/
def window_node_count : tui_window_t → Nat
  | .parent _ children => windows_node_count children + 1
  | .text _ _ _ => 1
  | .input _ _ => 1

/-- Number of window nodes behind a window pointer. -/
def window_opt_node_count : Option tui_window_t → Nat
  | none => 0
  | some w => window_node_count w

/-- Number of window nodes in a window array. -/
def windows_node_count : List (Option tui_window_t) → Nat
  | [] => 0
  | p :: ws => window_opt_node_count p + windows_node_count ws

end

mutual

/-- The liveness invariant of the data model: every window node of the
subtree holds a non-NULL native surface. -/
def window_live : tui_window_t → Bool
  | .parent window children => window.isSome && windows_live children
  | .text window _ _ => window.isSome
  | .input window _ => window.isSome

/-- Liveness behind a window pointer (a NULL pointer has no node). -/
def window_opt_live : Option tui_window_t → Bool
  | none => true
  | some w => window_live w

/-- Liveness of every node of a window array. -/
def windows_live : List (Option tui_window_t) → Bool
  | [] => true
  | p :: ws => window_opt_live p && windows_live ws

end

/-- One handler invocation as the event router would issue it: the
session handler, the active menu handler or the active window handler,
with the delivered key. -/
inductive handler_call where
  | session_handler (key : Int)
  | menu_handler (key : Int)
  | window_handler (key : Int)
deriving DecidableEq

/-- tui_event from the source.  The function body in the source is
empty, so the call performs no state change and invokes no handler:
the session is returned unchanged and the handler-invocation trace is
empty, for every key. -/
def tui_event (tui : tui_t) (key : Int) : tui_t × List handler_call :=
  (tui, [])

/-- A concrete session used to evaluate the theorems below: the last
activated color pair is index 37 (foreground ordinal 4, background
ordinal 1). -/
def sample_tui : tui_t :=
  { w := 80, h := 24, menus := [], windows := [], tab_windows := [],
    menu := none, window := none, color := 37, event := none,
    is_running := false }

/-- A concrete session with a tab-focus view of size 2 whose first entry
is the focused window, used to evaluate tui_event. -/
def sample_event_tui : tui_t :=
  { w := 80, h := 24, menus := [], windows := [], tab_windows := [10, 20],
    menu := none, window := some 10, color := 0, event := some 1,
    is_running := true }

/-- A concrete container window with a nested subtree: surfaces 2, 4, 3
below the root surface 1. -/
def sample_children : List (Option tui_window_t) :=
  [some (.text (some 2) (some "a") (some "a")),
   some (.parent (some 3) [some (.input (some 4) (some ""))])]

/-- A backend oracle under which no teardown call errors. -/
def no_err : Nat → Bool := fun _ => false

/-- Specification-side surfaces owned by a menu pointer, post-order. -/
def menu_windows_postorder : Option tui_menu_t → List Nat
  | none => []
  | some m => windows_postorder m.windows

/-- The pair registry content after startup registration: pair index c
holds content (c / 9 - 1, c % 9 - 1), the ncurses colors of the two tui
ordinals c / 9 and c % 9. -/
theorem tui_pairs_lookup : ∀ c : Int, 0 ≤ c → c < 81 →
    tui_pairs c = some (c / 9 - 1, c % 9 - 1) := by
  intro c h1 h2
  interval_cases c <;> decide

/-- Unfolding of tui_color_on when pair_content reports OK. -/
theorem tui_color_on_color_some (P : PairTable) (t : tui_t) (x y lf lb : Int)
    (h : pair_content P t.color = some (lf, lb)) :
    (tui_color_on P t x y).1.color
      = (if x = TUI_COLOR_NONE then lf + 1 else x) * 9
        + (if y = TUI_COLOR_NONE then lb + 1 else y) := by
  simp only [tui_color_on, h]

/-- Unfolding of tui_color_on when pair_content reports ERR. -/
theorem tui_color_on_color_none (P : PairTable) (t : tui_t) (x y : Int)
    (h : pair_content P t.color = none) :
    (tui_color_on P t x y).1.color = x * 9 + y := by
  simp only [tui_color_on, h]

/-- Activating a pair of two non-NONE ordinals stores exactly its index,
whatever the previous session color was. -/
theorem tui_color_on_valid_pair (t : tui_t) (f1 b1 : Int)
    (hf1 : TUI_COLOR_BLACK ≤ f1) (hf2 : f1 ≤ TUI_COLOR_WHITE)
    (hb1 : TUI_COLOR_BLACK ≤ b1) (hb2 : b1 ≤ TUI_COLOR_WHITE) :
    (tui_color_on tui_pairs t f1 b1).1.color = f1 * 9 + b1 := by
  simp only [TUI_COLOR_BLACK, TUI_COLOR_WHITE] at hf1 hf2 hb1 hb2
  rcases h : pair_content tui_pairs t.color with _ | ⟨lf, lb⟩
  · rw [tui_color_on_color_none _ _ _ _ h]
  · rw [tui_color_on_color_some _ _ _ _ _ _ h]
    simp only [TUI_COLOR_NONE]
    rw [if_neg (by omega), if_neg (by omega)]

/-- The delwin trace of tui_ncurses_window_free is the surface behind
the pointer, independently of the backend results. -/
theorem tui_ncurses_window_free_trace (err : Nat → Bool) (window : Option Nat) :
    (tui_ncurses_window_free err window).2 = window.toList := by
  cases window <;> simp [tui_ncurses_window_free]

/-- The delwin trace of the window free operations is the post-order
surface listing of the subtree, for every backend error oracle. -/
theorem free_trace_eq (err : Nat → Bool) :
    (∀ w : tui_window_t, tui_window_free_switch err w = window_postorder w)
    ∧ (∀ ws : List (Option tui_window_t),
        (tui_windows_free err ws).2 = windows_postorder ws)
    ∧ (∀ p : Option tui_window_t,
        (tui_window_free err p).2 = window_opt_postorder p) := by
  apply tui_window_free_switch.mutual_induct err <;> intros <;>
    simp_all [tui_window_free_switch, tui_window_free, tui_windows_free,
      window_postorder, windows_postorder, window_opt_postorder,
      tui_window_text_free, tui_window_input_free, tui_ncurses_window_free_trace]

/-- A non-NULL optional surface contributes exactly one list entry. -/
theorem opt_toList_length (o : Option Nat) (h : o.isSome = true) :
    o.toList.length = 1 := by
  cases o <;> simp_all

/-- On a live subtree the post-order surface listing has exactly one
entry per window node. -/
theorem postorder_length_eq :
    (∀ w : tui_window_t, window_live w = true →
        (window_postorder w).length = window_node_count w)
    ∧ (∀ ws : List (Option tui_window_t), windows_live ws = true →
        (windows_postorder ws).length = windows_node_count ws)
    ∧ (∀ p : Option tui_window_t, window_opt_live p = true →
        (window_opt_postorder p).length = window_opt_node_count p) := by
  apply window_postorder.mutual_induct <;> intros <;>
    simp_all [window_postorder, windows_postorder, window_opt_postorder,
      window_live, windows_live, window_opt_live,
      window_node_count, windows_node_count, window_opt_node_count,
      opt_toList_length]

/-- The delwin trace of the menu loop in tui_delete is the post-order
surface listing of every owned menu subtree, for every error oracle. -/
theorem menus_loop_trace_eq (err : Nat → Bool) :
    ∀ ms : List (Option tui_menu_t),
      tui_menus_free_loop err ms = (ms.map menu_windows_postorder).flatten := by
  intro ms
  induction ms with
  | nil => simp [tui_menus_free_loop]
  | cons m ms ih =>
      cases m <;>
        simp_all [tui_menus_free_loop, tui_menu_free, menu_windows_postorder,
          (free_trace_eq err).2.1]

/-- C1: transparency inheritance of tui_color_on.  When the session
color is a registered pair index fg0 * 9 + bg0, a TUI_COLOR_NONE
foreground argument is substituted by fg0 (the foreground ordinal of the
pair most recently made active) and a TUI_COLOR_NONE background by bg0;
the computed pair always becomes the currently active one (the stored
session color equals the index passed to attron); and in particular
activating (NONE, NONE) right after activating a valid pair (f1, b1)
leaves the active pair at f1 * 9 + b1 unchanged. -/
theorem tui_color_on_transparency_inheritance
    (tui : tui_t) (fg0 bg0 f b : Int)
    (hf0 : 0 ≤ fg0) (hf0h : fg0 < 9) (hb0 : 0 ≤ bg0) (hb0h : bg0 < 9)
    (hc : tui.color = fg0 * 9 + bg0)
    (hf : f ≠ TUI_COLOR_NONE) (hb : b ≠ TUI_COLOR_NONE) :
    (tui_color_on tui_pairs tui TUI_COLOR_NONE b).1.color = fg0 * 9 + b
    ∧ (tui_color_on tui_pairs tui f TUI_COLOR_NONE).1.color = f * 9 + bg0
    ∧ (∀ (P : PairTable) (t : tui_t) (x y : Int),
        (tui_color_on P t x y).1.color = (tui_color_on P t x y).2)
    ∧ ∀ (t : tui_t) (f1 b1 : Int),
        TUI_COLOR_BLACK ≤ f1 → f1 ≤ TUI_COLOR_WHITE →
        TUI_COLOR_BLACK ≤ b1 → b1 ≤ TUI_COLOR_WHITE →
        (tui_color_on tui_pairs ((tui_color_on tui_pairs t f1 b1).1)
            TUI_COLOR_NONE TUI_COLOR_NONE).1.color
          = (tui_color_on tui_pairs t f1 b1).1.color
        ∧ (tui_color_on tui_pairs t f1 b1).1.color = f1 * 9 + b1 := by
  have hp : pair_content tui_pairs tui.color
      = some (tui.color / 9 - 1, tui.color % 9 - 1) :=
    tui_pairs_lookup tui.color (by omega) (by omega)
  refine ⟨?_, ?_, fun P t x y => rfl, ?_⟩
  · rw [tui_color_on_color_some _ _ _ _ _ _ hp]
    rw [if_pos rfl, if_neg hb]
    simp only [TUI_COLOR_NONE] at hb ⊢
    omega
  · rw [tui_color_on_color_some _ _ _ _ _ _ hp]
    rw [if_pos rfl, if_neg hf]
    simp only [TUI_COLOR_NONE] at hf ⊢
    omega
  · intro t f1 b1 hf1 hf2 hb1 hb2
    have h1 : (tui_color_on tui_pairs t f1 b1).1.color = f1 * 9 + b1 :=
      tui_color_on_valid_pair t f1 b1 hf1 hf2 hb1 hb2
    refine ⟨?_, h1⟩
    simp only [TUI_COLOR_BLACK, TUI_COLOR_WHITE] at hf1 hf2 hb1 hb2
    have hp2 : pair_content tui_pairs (tui_color_on tui_pairs t f1 b1).1.color
        = some ((tui_color_on tui_pairs t f1 b1).1.color / 9 - 1,
                (tui_color_on tui_pairs t f1 b1).1.color % 9 - 1) := by
      apply tui_pairs_lookup <;> rw [h1] <;> omega
    rw [tui_color_on_color_some _ _ _ _ _ _ hp2]
    simp [TUI_COLOR_NONE]
    rw [h1]
    omega

/-- Witness for C1 at a concrete session whose active pair is 37:
transparency inheritance evaluated at ordinals (4, 1) with replacement
arguments 2 and 3. -/
theorem tui_color_on_transparency_inheritance_witness :
    (tui_color_on tui_pairs sample_tui TUI_COLOR_NONE 3).1.color = 4 * 9 + 3
    ∧ (tui_color_on tui_pairs sample_tui 2 TUI_COLOR_NONE).1.color = 2 * 9 + 1
    ∧ ((tui_color_on tui_pairs ((tui_color_on tui_pairs sample_tui 2 3).1)
          TUI_COLOR_NONE TUI_COLOR_NONE).1.color
        = (tui_color_on tui_pairs sample_tui 2 3).1.color
      ∧ (tui_color_on tui_pairs sample_tui 2 3).1.color = 2 * 9 + 3) :=
  ⟨(tui_color_on_transparency_inheritance sample_tui 4 1 2 3 (by decide)
      (by decide) (by decide) (by decide) (by decide) (by decide) (by decide)).1,
   (tui_color_on_transparency_inheritance sample_tui 4 1 2 3 (by decide)
      (by decide) (by decide) (by decide) (by decide) (by decide) (by decide)).2.1,
   (tui_color_on_transparency_inheritance sample_tui 4 1 2 3 (by decide)
      (by decide) (by decide) (by decide) (by decide) (by decide) (by decide)).2.2.2
      sample_tui 2 3 (by decide) (by decide) (by decide) (by decide)⟩

set_option maxRecDepth 4000 in
/-- C2: color-pair addressing.  The startup registration issues exactly
the init_pair calls with indices 0 .. 80 in index order; the map
(fg, bg) to fg * 9 + bg is a bijection of the 81 ordinal pairs onto
[0, 81); every one of the 81 combinations is registered with the colors
TUI_COLORS[fg] and TUI_COLORS[bg]; and the successful tui_init issues
exactly that registration sequence. -/
theorem tui_colors_init_registration_bijection :
    ((tui_colors_init empty_pairs).2.map (fun c => c.1)
        = (List.range 81).map (fun n => Int.ofNat n))
    ∧ Function.Bijective tui_pair_index_fin
    ∧ (∀ fg bg : Fin 9,
        (Int.ofNat fg.val * 9 + Int.ofNat bg.val,
          TUI_COLORS.getD fg.val 0, TUI_COLORS.getD bg.val 0)
          ∈ (tui_colors_init empty_pairs).2)
    ∧ ((tui_init true true).2.filterMap
          (fun c => match c with
            | ncurses_call.init_pair_call p f b => some (p, f, b)
            | _ => none)
        = (tui_colors_init empty_pairs).2) := by
  exact ⟨by decide, by decide, by decide, by decide⟩

/-- C3: tree teardown order and exactly-once release.  Destroying a
container window frees, for every backend error oracle, exactly the
post-order surface listing of its subtree (children before the node
itself); on a live subtree that listing has one entry per node; and
when the surfaces are pairwise distinct every surface is destroyed
exactly once. -/
theorem tui_window_parent_free_postorder (err : Nat → Bool)
    (window : Option Nat) (children : List (Option tui_window_t))
    (hlive : window_live (.parent window children) = true)
    (hnodup : (window_postorder (.parent window children)).Nodup) :
    tui_window_parent_free err window children
        = window_postorder (.parent window children)
    ∧ (window_postorder (.parent window children)).length
        = window_node_count (.parent window children)
    ∧ ∀ s ∈ window_postorder (.parent window children),
        (tui_window_parent_free err window children).count s = 1 := by
  have htr : tui_window_parent_free err window children
      = window_postorder (.parent window children) := by
    simp only [tui_window_parent_free, window_postorder,
      (free_trace_eq err).2.1, tui_ncurses_window_free_trace]
  refine ⟨htr, postorder_length_eq.1 _ hlive, ?_⟩
  intro s hs
  rw [htr]
  exact List.count_eq_one_of_mem hnodup hs

/-- Witness for C3 on a concrete three-level tree with surfaces 1
(root), 2 and 3 (children) and 4 (grandchild): the teardown trace is
[2, 4, 3, 1], post-order with each surface exactly once. -/
theorem tui_window_parent_free_postorder_witness :
    window_live (.parent (some 1) sample_children) = true
    ∧ (window_postorder (.parent (some 1) sample_children)).Nodup
    ∧ window_postorder (.parent (some 1) sample_children) = [2, 4, 3, 1]
    ∧ tui_window_parent_free no_err (some 1) sample_children
        = window_postorder (.parent (some 1) sample_children)
    ∧ ∀ s ∈ window_postorder (.parent (some 1) sample_children),
        (tui_window_parent_free no_err (some 1) sample_children).count s = 1 :=
  ⟨by decide, by decide, by decide,
   (tui_window_parent_free_postorder no_err (some 1) sample_children
      (by decide) (by decide)).1,
   (tui_window_parent_free_postorder no_err (some 1) sample_children
      (by decide) (by decide)).2.2⟩

/-- C4 (code bug evidence): the body of tui_event in the source is
empty.  Evaluated at a session with tab-focus view [10, 20] and focused
window 10, delivering KEY_TAB returns the session completely unchanged
(the focused window stays 10 instead of advancing to 20) and invokes
no handler. -/
theorem tui_event_tab_does_not_advance :
    sample_event_tui.tab_windows = [10, 20]
    ∧ sample_event_tui.window = some 10
    ∧ tui_event sample_event_tui KEY_TAB = (sample_event_tui, [])
    ∧ (tui_event sample_event_tui KEY_TAB).1.window = some 10 :=
  ⟨rfl, rfl, rfl, rfl⟩

/-- C5 (code bug evidence): delivering a non-TAB, non-global key (97,
the letter a) through the empty-bodied tui_event invokes neither the
session handler nor any menu or window handler: the handler-invocation
trace is empty and the session is unchanged. -/
theorem tui_event_invokes_no_handlers :
    (tui_event sample_event_tui 97).2 = []
    ∧ (tui_event sample_event_tui 97).1 = sample_event_tui :=
  ⟨rfl, rfl⟩

/-- C6: initialization failure is fatal and clean.  When start_color
fails or the backend lacks color support, tui_init returns 1, the very
last backend call is endwin (the terminal driver is shut down before
returning, nothing runs after it) and no color pair is registered. -/
theorem tui_init_color_failure_fatal (start_color_ok has_colors : Bool)
    (h : start_color_ok = false ∨ has_colors = false) :
    (tui_init start_color_ok has_colors).1 = 1
    ∧ (tui_init start_color_ok has_colors).2.getLast? = some .endwin_call
    ∧ ∀ c ∈ (tui_init start_color_ok has_colors).2, is_init_pair_call c = false := by
  cases start_color_ok <;> cases has_colors <;> revert h <;> decide

/-- Witness for C6 with start_color failing and has_colors true. -/
theorem tui_init_color_failure_fatal_witness :
    (false = false ∨ true = false)
    ∧ (tui_init false true).1 = 1
    ∧ (tui_init false true).2.getLast? = some .endwin_call
    ∧ ∀ c ∈ (tui_init false true).2, is_init_pair_call c = false :=
  ⟨Or.inl rfl, tui_init_color_failure_fatal false true (Or.inl rfl)⟩

/-- C7: destruction is infallible.  For every input, including NULL
pointers, each destruction operation returns with the caller pointer set
to NULL, and its teardown trace is identical under every backend error
oracle: backend errors never block cleanup of the remaining subtree. -/
theorem tui_free_operations_infallible (err err2 : Nat → Bool)
    (sp : Option Nat) (wp : Option tui_window_t) (mp : Option tui_menu_t)
    (tp : Option tui_t) :
    (tui_ncurses_window_free err sp).1 = none
    ∧ (tui_window_free err wp).1 = none
    ∧ (tui_menu_free err mp).1 = none
    ∧ (tui_delete err tp).1 = none
    ∧ (tui_ncurses_window_free err sp).2 = (tui_ncurses_window_free err2 sp).2
    ∧ (tui_window_free err wp).2 = (tui_window_free err2 wp).2
    ∧ (tui_menu_free err mp).2 = (tui_menu_free err2 mp).2
    ∧ (tui_delete err tp).2 = (tui_delete err2 tp).2 := by
  refine ⟨?_, ?_, ?_, ?_, ?_, ?_, ?_, ?_⟩
  · cases sp <;> rfl
  · cases wp <;> rfl
  · cases mp <;> rfl
  · cases tp <;> rfl
  · rw [tui_ncurses_window_free_trace, tui_ncurses_window_free_trace]
  · rw [(free_trace_eq err).2.2, (free_trace_eq err2).2.2]
  · cases mp with
    | none => rfl
    | some m => simp [tui_menu_free, (free_trace_eq err).2.1, (free_trace_eq err2).2.1]
  · cases tp with
    | none => rfl
    | some t =>
        simp [tui_delete, menus_loop_trace_eq, (free_trace_eq err).2.1,
          (free_trace_eq err2).2.1]

/-- C8: tui_create caches the stdscr dimensions and stores the supplied
handler; on malloc failure it returns NULL with nothing created; on
success every owned collection is empty, the active menu and window are
NULL, the color is 0 and running is false. -/
theorem tui_create_initial_state (w h : Int) (e : Option Nat) :
    tui_create false w h e = none
    ∧ tui_create true w h e =
        some { w := w, h := h, menus := [], windows := [], tab_windows := [],
               menu := none, window := none, color := 0, event := e,
               is_running := false } :=
  ⟨rfl, rfl⟩

/-- C9: frame property of tui_color_off.  For every pair registry,
session and argument pair the session returned by tui_color_off is the
input session itself, so every field, in particular the last-active
color tracking field, keeps its value; only the attroff index is
computed and handed to the backend. -/
theorem tui_color_off_frame (pairs : PairTable) (tui : tui_t) (fg bg : Int) :
    (tui_color_off pairs tui fg bg).1 = tui
    ∧ ((tui_color_off pairs tui fg bg).1).color = tui.color :=
  ⟨rfl, rfl⟩

/-- C10: the TUI_COLORS table satisfies TUI_COLORS[i] = i - 1 on every
ordinal i in [0, 9), and therefore tui_color_on with both arguments
TUI_COLOR_NONE leaves the session color unchanged whenever it holds a
pair index registered by tui_colors_init. -/
theorem tui_color_on_none_none_idempotent :
    (∀ i : Fin 9, TUI_COLORS.getD i.val 0 = Int.ofNat i.val - 1)
    ∧ ∀ tui : tui_t, 0 ≤ tui.color → tui.color < 81 →
        (tui_color_on tui_pairs tui TUI_COLOR_NONE TUI_COLOR_NONE).1.color
          = tui.color := by
  constructor
  · decide
  · intro tui h1 h2
    have hp : pair_content tui_pairs tui.color
        = some (tui.color / 9 - 1, tui.color % 9 - 1) :=
      tui_pairs_lookup tui.color h1 h2
    rw [tui_color_on_color_some _ _ _ _ _ _ hp]
    simp [TUI_COLOR_NONE]
    omega

/-- Witness for C10 at the concrete session whose color is pair 37. -/
theorem tui_color_on_none_none_idempotent_witness :
    (0 ≤ sample_tui.color ∧ sample_tui.color < 81)
    ∧ (tui_color_on tui_pairs sample_tui TUI_COLOR_NONE TUI_COLOR_NONE).1.color
        = sample_tui.color :=
  ⟨⟨by decide, by decide⟩,
   tui_color_on_none_none_idempotent.2 sample_tui (by decide) (by decide)⟩

end Tui
